import Mathlib

/-! # RtProgram entry-point bookkeeping, TimingCapture and Extension::Bindings

A shallow embedding of

* `Source/Falcor/Raytracing/RtProgram/RtProgram.h` (namespace `Falcor`),
* `Source/Mogwai/Extensions/Profiler/TimingCapture.cpp` and
  `Source/Mogwai/Mogwai.h` (namespace `Mogwai`),

followed by the properties established about them.

Conventions.  A `uint32_t` is a `Nat` (below `2 ^ 32`), an `int32_t` an `Int`;
wherever the C++ converts to `uint32_t` the conversion is written out
(`toUInt32`, `sizeToUInt32`).  A `std::vector` is a `List`.  A call that can
throw, or whose behaviour the language leaves undefined, returns an `Outcome`.
-/

/-- How a C++ call ends: it returns a value, it throws, or (unchecked access
outside a container) the language defines no behaviour for it at all. -/
inductive Outcome (ε α : Type) where
  | value (a : α)
  | raised (e : ε)
  | undefined
  deriving DecidableEq, Repr

namespace Outcome

/-- One call followed by another: the second runs on the value the first
returned; a throw or undefined behaviour of the first ends the sequence. -/
def andThen {ε α β : Type} (first : Outcome ε α) (next : α → Outcome ε β) : Outcome ε β :=
  match first with
  | value a => next a
  | raised e => raised e
  | undefined => undefined

end Outcome

namespace Falcor

/-- The error taxonomy the specification uses for the ray-tracing program
component. -/
inductive Error where
  | InvalidConfiguration
  | IndexOutOfRange
  | ConfigurationLimitExceeded
  | CompilationFailed
  | BackendBuildFailed
  deriving DecidableEq, Repr

/-- The number of `uint32_t` values. -/
def uint32Size : Nat := 2 ^ 32

/-- Conversion of an `int32_t` to `uint32_t` (value modulo `2 ^ 32`), as done
implicitly by `return ....groupIndex;` in a function returning `uint32_t`. -/
def toUInt32 (z : Int) : Nat := (z % (uint32Size : Int)).toNat

/-- The cast `(uint32_t) v.size()` of a `size_t`. -/
def sizeToUInt32 (n : Nat) : Nat := n % uint32Size

/-- The struct `RtProgram::DescExtra::GroupInfo`. -/
structure GroupInfo where
  groupIndex : Int := -1
  deriving DecidableEq, Repr

/-- The struct `RtProgram::DescExtra`. -/
structure DescExtra where
  mRayGenEntryPoints : List GroupInfo := []
  mMissEntryPoints : List GroupInfo := []
  mHitGroups : List GroupInfo := []
  mParticleHitGroups : List GroupInfo := []
  mCurveHitGroups : List GroupInfo := []
  mMaxTraceRecursionDepth : Nat := 1
  deriving DecidableEq, Repr

namespace DescExtra

/-- The setter `void setMaxTraceRecursionDepth(uint32_t maxDepth)`. -/
def setMaxTraceRecursionDepth (self : DescExtra) (maxDepth : Nat) : DescExtra :=
  { self with mMaxTraceRecursionDepth := maxDepth }

end DescExtra

/-- Modelled from the spec: a pipeline state object (`RtStateObject`, absent),
known by its identity; the builder gives the object of its `n`-th invocation
(counted from 0) the identity `n`. -/
structure RtStateObject where
  id : Nat
  deriving DecidableEq, Repr

/-- Modelled from the spec: the key of the state-object cache, section 3
(StateObjectCache): the identity of the scene the program is bound to (none
when it has no scene) and the identity of the variable layout. -/
structure RtsoKey where
  scene : Option Nat
  layout : Nat
  deriving DecidableEq, Repr

/-- The data members of `RtProgram`.  `mRtsoGraph` (a `StateGraph`, absent) is
kept as the entries of the state-object cache of section 3, `mpScene` as the
identity of the scene the shared pointer refers to. -/
structure RtProgram where
  mDescExtra : DescExtra
  mMaxPayloadSize : Nat
  mMaxAttributesSize : Nat
  mRtsoGraph : List (RtsoKey × RtStateObject) := []
  mpScene : Option Nat := none
  deriving DecidableEq, Repr

/-- The expression `v[index].groupIndex` returned as `uint32_t`:
`std::vector::operator[]` does not check `index`, so outside the vector the
behaviour is undefined. -/
def groupIndexAt (v : List GroupInfo) (index : Nat) : Outcome Error Nat :=
  match v[index]? with
  | some info => Outcome.value (toUInt32 info.groupIndex)
  | none => Outcome.undefined

namespace RtProgram

/-- The getter `uint32_t getMaxTraceRecursionDepth() const`. -/
def getMaxTraceRecursionDepth (self : RtProgram) : Nat :=
  self.mDescExtra.mMaxTraceRecursionDepth

/-- The getter `uint32_t getRayGenProgramCount() const`. -/
def getRayGenProgramCount (self : RtProgram) : Nat :=
  sizeToUInt32 self.mDescExtra.mRayGenEntryPoints.length

/-- The getter `uint32_t getRayGenIndex(uint32_t index) const`. -/
def getRayGenIndex (self : RtProgram) (index : Nat) : Outcome Error Nat :=
  groupIndexAt self.mDescExtra.mRayGenEntryPoints index

/-- The getter `uint32_t getHitProgramCount() const`. -/
def getHitProgramCount (self : RtProgram) : Nat :=
  sizeToUInt32 self.mDescExtra.mHitGroups.length

/-- The getter `uint32_t getHitIndex(uint32_t index) const`. -/
def getHitIndex (self : RtProgram) (index : Nat) : Outcome Error Nat :=
  groupIndexAt self.mDescExtra.mHitGroups index

/-- The getter `uint32_t getCurveHitProgramCount() const`. -/
def getCurveHitProgramCount (self : RtProgram) : Nat :=
  sizeToUInt32 self.mDescExtra.mCurveHitGroups.length

/-- The getter `uint32_t getCurveHitIndex(uint32_t index) const`. -/
def getCurveHitIndex (self : RtProgram) (index : Nat) : Outcome Error Nat :=
  groupIndexAt self.mDescExtra.mCurveHitGroups index

/-- The getter `uint32_t getParticleHitProgramCount() const`. -/
def getParticleHitProgramCount (self : RtProgram) : Nat :=
  sizeToUInt32 self.mDescExtra.mParticleHitGroups.length

/-- The getter `uint32_t getParticleHitIndex(uint32_t index) const`. -/
def getParticleHitIndex (self : RtProgram) (index : Nat) : Outcome Error Nat :=
  groupIndexAt self.mDescExtra.mParticleHitGroups index

/-- The getter `uint32_t getMissProgramCount() const`. -/
def getMissProgramCount (self : RtProgram) : Nat :=
  sizeToUInt32 self.mDescExtra.mMissEntryPoints.length

/-- The getter `uint32_t getMissIndex(uint32_t index) const`. -/
def getMissIndex (self : RtProgram) (index : Nat) : Outcome Error Nat :=
  groupIndexAt self.mDescExtra.mMissEntryPoints index

/-- The getter `DescExtra const& getDescExtra() const`. -/
def getDescExtra (self : RtProgram) : DescExtra := self.mDescExtra

end RtProgram

/-! ### The descriptor and the state-object cache

`RtProgram.h` declares `Desc` and `RtProgram::getRtso`; the bodies of their
member functions (`RtProgram.cpp`) and the types `Program::Desc`,
`Program::DefineList` and `StateGraph` are not among the sources. -/

/-- Modelled from the spec: one entry-point registration held by the
descriptor (the type `Program::Desc` that holds them is absent).  Section 3,
EntryPointRole: a tagged variant RayGeneration, Miss, HitGroup,
HitGroupAlt(Particle or Curve), carrying the slot the caller used and the
shader names involved. -/
inductive EntryPoint where
  | RayGeneration (raygen : String)
  | Miss (missIndex : Nat) (miss : String)
  | HitGroup (hitIndex : Nat) (closestHit anyHit intersection : String)
  | ParticleHitGroup (hitIndex : Nat) (closestHit anyHit intersection : String)
  | CurveHitGroup (hitIndex : Nat) (closestHit anyHit intersection : String)
  deriving DecidableEq, Repr

/-- Modelled from the spec: the define list (`Program::DefineList`, absent).
Section 3: a set of global preprocessor defines, key unique; kept as key/value
entries whose keys are pairwise distinct. -/
structure DefineList where
  entries : List (String × String) := []
  keysUnique : (entries.map Prod.fst).Nodup := by decide
  deriving DecidableEq, Repr

namespace DefineList

/-- Modelled from the spec: the value the define list holds for `key`, if
any. -/
def find (self : DefineList) (key : String) : Option String :=
  (self.entries.find? (fun e => decide (e.1 = key))).map Prod.snd

/-- Modelled from the spec: adding a define.  Section 4.1: defines accumulate
into a mapping, key unique; re-adding a key overwrites its value (last write
wins, no error): the entry of `key`, if there is one, gives way to the entry
`(key, value)`. -/
def add (self : DefineList) (key value : String) : DefineList :=
  { entries := (key, value) :: self.entries.filter (fun e => decide (e.1 ≠ key))
    keysUnique := by
      rw [List.map_cons, List.nodup_cons]
      refine ⟨fun h => ?_,
        List.Nodup.sublist ((List.filter_sublist _).map Prod.fst) self.keysUnique⟩
      rw [List.mem_map] at h
      obtain ⟨e, he, hk⟩ := h
      rw [List.mem_filter] at he
      exact (of_decide_eq_true he.2) hk }

end DefineList

/-- The class `RtProgram::Desc : public DescExtra` with its private members;
of `mBaseDesc` (a `Program::Desc`, absent) are kept the ordered sequence of
registrations of section 3 (ProgramDescriptor), as `mBaseDesc`, and the
compiler flags it holds, a bit mask, as `mCompilerFlags`. -/
structure Desc extends DescExtra where
  mBaseDesc : List EntryPoint := []
  mDefineList : DefineList := {}
  mCompilerFlags : Nat := 0
  deriving DecidableEq, Repr

namespace Desc

/-- Modelled from the spec: the body of `Desc::addHitGroup` (absent; the
declaration defaults `anyHit` and `intersection` to the empty string).  Section
4.1: hit-group registration requires at least one of closest-hit, any-hit,
intersection to be non-empty, an entirely empty hit group fails with
InvalidConfiguration; otherwise the call appends one registration and returns
the descriptor. -/
def addHitGroup (self : Desc) (hitIndex : Nat) (closestHit anyHit intersection : String) :
    Outcome Error Desc :=
  if closestHit.isEmpty && anyHit.isEmpty && intersection.isEmpty then
    Outcome.raised Error.InvalidConfiguration
  else
    Outcome.value
      { self with
        mBaseDesc := self.mBaseDesc ++ [EntryPoint.HitGroup hitIndex closestHit anyHit intersection] }

/-- Modelled from the spec: the body of `Desc::addDefine` (absent).  Section
4.1: the define is added to the descriptor's mapping of defines, overwriting
the value of a key that is already there; no error is raised and the
descriptor is returned for chaining. -/
def addDefine (self : Desc) (define value : String) : Outcome Error Desc :=
  Outcome.value { self with mDefineList := self.mDefineList.add define value }

/-- The inherited member `void setMaxTraceRecursionDepth(uint32_t maxDepth)`
called on a `Desc`. -/
def setMaxTraceRecursionDepth (self : Desc) (maxDepth : Nat) : Desc :=
  { self with toDescExtra := self.toDescExtra.setMaxTraceRecursionDepth maxDepth }

end Desc

namespace Desc

end Desc

namespace RtProgram

end RtProgram

end Falcor

namespace Mogwai

/-! ### TimingCapture (`TimingCapture.cpp`) -/

/-- A `double` sent to a capture file, kept as its 64-bit pattern; no
arithmetic on it is modelled. -/
abbrev Double := Nat

/-- A `std::ofstream`: the file it is associated with while open, and the
records put into that file since it was opened (opening truncates). -/
structure Ofstream where
  file : Option String := none
  written : List Double := []
  deriving DecidableEq, Repr

namespace Ofstream

/-- The member `is_open()`. -/
def is_open (s : Ofstream) : Bool := s.file.isSome

/-- The member `close()`. -/
def close (s : Ofstream) : Ofstream := { s with file := none }

/-- The member `open(filename, std::ofstream::trunc)`; `canOpen` tells whether
the environment lets `filename` be opened for writing.  Opening a stream that
is already open fails and leaves it associated with its file. -/
def openTrunc (canOpen : String → Bool) (s : Ofstream) (filename : String) : Ofstream :=
  if s.is_open then s
  else if canOpen filename then { file := some filename, written := [] }
  else s

/-- The insertion `s << x << std::endl`; nothing reaches a file when the
stream is not open. -/
def put (s : Ofstream) (x : Double) : Ofstream :=
  if s.is_open then { s with written := s.written ++ [x] } else s

end Ofstream

/-- What the file system answers to `doesFileExist` and to an attempt to open
a file for writing. -/
structure FileSystem where
  doesFileExist : String → Bool
  canOpen : String → Bool

/-- Severity of a logger message. -/
inductive LogLevel where
  | Warning
  | Error
  deriving DecidableEq, Repr

/-- The globals the member functions write: `gProfileEnabled` and the logger
(`logWarning`, `logError`). -/
structure Globals where
  gProfileEnabled : Bool := false
  log : List (LogLevel × String) := []
  deriving DecidableEq, Repr

namespace Globals

/-- The call `logWarning(msg)`. -/
def logWarning (g : Globals) (msg : String) : Globals :=
  { g with log := g.log ++ [(LogLevel.Warning, msg)] }

/-- The call `logError(msg)`. -/
def logError (g : Globals) (msg : String) : Globals :=
  { g with log := g.log ++ [(LogLevel.Error, msg)] }

end Globals

/-- The data members of `TimingCapture` used in `TimingCapture.cpp`. -/
structure TimingCapture where
  mFrameTimeFile : Ofstream := {}
  mPassTimeFiles : List Ofstream := []
  mPassNames : List String := []
  deriving DecidableEq, Repr

namespace TimingCapture

/-- The member `void captureFrameTime(std::string filename)`. -/
def captureFrameTime (fs : FileSystem) (self : TimingCapture) (g : Globals)
    (filename : String) : TimingCapture × Globals :=
  let file := if self.mFrameTimeFile.is_open then self.mFrameTimeFile.close else self.mFrameTimeFile
  if !filename.isEmpty then
    let g := if fs.doesFileExist filename then
        g.logWarning ("Frame times in file \x27" ++ filename ++ "\x27 will be overwritten.")
      else g
    let file := file.openTrunc fs.canOpen filename
    let g := if !file.is_open then
        g.logError ("Failed to open file \x27" ++ filename ++ "\x27 for writing. Ignoring call.")
      else g
    ({ self with mFrameTimeFile := file }, g)
  else
    ({ self with mFrameTimeFile := file }, g)

/-- The search loop at the head of `capturePassTime`: the first `i` (counted
from `i`) with `mPassNames[i] == passName`, or `-1`. -/
def findPassIndex : List String → String → Nat → Int
  | [], _, _ => -1
  | n :: rest, passName, i => if n = passName then (i : Int) else findPassIndex rest passName (i + 1)

/-- The member `void capturePassTime(std::string filename, std::string passName)`.
`mPassTimeFiles[passIndex]` is an unchecked access. -/
def capturePassTime (fs : FileSystem) (self : TimingCapture) (g : Globals)
    (filename passName : String) : Outcome String (TimingCapture × Globals) :=
  let g := { g with gProfileEnabled := true }
  let passIndex : Int := findPassIndex self.mPassNames passName 0
  if 0 ≤ passIndex then
    match self.mPassTimeFiles[passIndex.toNat]? with
    | none => Outcome.undefined
    | some f =>
      let files := if f.is_open then self.mPassTimeFiles.set passIndex.toNat f.close
        else self.mPassTimeFiles
      if !filename.isEmpty then
        let g := if fs.doesFileExist filename then
            g.logWarning ("Frame times in file \x27" ++ filename ++ "\x27 will be overwritten.")
          else g
        match files[passIndex.toNat]? with
        | none => Outcome.undefined
        | some f1 =>
          let f2 := f1.openTrunc fs.canOpen filename
          let g := if !f2.is_open then
              g.logError ("Failed to open file \x27" ++ filename ++ "\x27 for writing. Ignoring call.")
            else g
          Outcome.value ({ self with mPassTimeFiles := files.set passIndex.toNat f2 }, g)
      else
        Outcome.value ({ self with mPassTimeFiles := files }, g)
  else
    if !filename.isEmpty then
      let g := if fs.doesFileExist filename then
          g.logWarning ("Frame times in file \x27" ++ filename ++ "\x27 will be overwritten.")
        else g
      -- passIndex == -1: create new ofstream
      let f2 := Ofstream.openTrunc fs.canOpen {} filename
      let g := if !f2.is_open then
          g.logError ("Failed to open file \x27" ++ filename ++ "\x27 for writing. Ignoring call.")
        else g
      Outcome.value
        ({ self with
           mPassTimeFiles := self.mPassTimeFiles ++ [f2]
           mPassNames := self.mPassNames ++ [passName] }, g)
    else
      Outcome.value (self, g)

/-- The member `void recordPreviousFrameTime()`; `frameCount` and
`lastFrameTime` are what `gpFramework->getFrameRate()` reports. -/
def recordPreviousFrameTime (frameCount : Nat) (lastFrameTime : Double)
    (self : TimingCapture) : TimingCapture :=
  if !self.mFrameTimeFile.is_open then self
  else if 1 < frameCount then
    { self with mFrameTimeFile := self.mFrameTimeFile.put lastFrameTime }
  else self

end TimingCapture

/-! ### Extension::Bindings (`Mogwai.h`) -/

/-- The lookup `m.find(key)` of a `std::unordered_map<std::string, std::string>`
kept as key/value pairs: the mapped value, or nothing for `end()`. -/
def mapFind : List (String × String) → String → Option String
  | [], _ => none
  | (k, v) :: rest, key => if k = key then some v else mapFind rest key

/-- The assignment `m[key] = value`: overwrite the value of an existing key,
insert the pair otherwise. -/
def mapAssign : List (String × String) → String → String → List (String × String)
  | [], key, value => [(key, value)]
  | (k, v) :: rest, key, value =>
    if k = key then (k, value) :: rest else (k, v) :: mapAssign rest key value

/-- The data member `mGlobalObjects` of `Extension::Bindings`. -/
structure Bindings where
  mGlobalObjects : List (String × String) := []
  deriving DecidableEq, Repr

namespace Bindings

/-- The member template `addGlobalObject(name, obj, desc)`.  The scripting
global context (`Scripting::getGlobalContext()`, absent) is the state `ctx`
and its `setObject` a parameter.  The result is how the call ends together
with the bindings and the context it leaves behind. -/
def addGlobalObject {Ctx T : Type} (setObject : Ctx → String → T → Ctx)
    (self : Bindings) (ctx : Ctx) (name : String) (obj : T) (desc : String) :
    Outcome String Unit × Bindings × Ctx :=
  if (mapFind self.mGlobalObjects name).isSome then
    (Outcome.raised ("Object \x27" ++ name ++ "\x27 already exists"), self, ctx)
  else
    (Outcome.value (), { self with mGlobalObjects := mapAssign self.mGlobalObjects name desc },
      setObject ctx name obj)

end Bindings

end Mogwai

/-! ### Sample values -/

namespace Falcor

/-- A program with two ray-gen entries, one miss entry, one hit group, one
particle hit group, and one curve hit group left at the default `GroupInfo`. -/
def sampleProgram : RtProgram :=
  { mDescExtra :=
      { mRayGenEntryPoints := [{ groupIndex := 0 }, { groupIndex := 1 }]
        mMissEntryPoints := [{ groupIndex := 2 }]
        mHitGroups := [{ groupIndex := 3 }]
        mParticleHitGroups := [{ groupIndex := 4 }]
        mCurveHitGroups := [{}] }
    mMaxPayloadSize := 32
    mMaxAttributesSize := 8 }

end Falcor

namespace Mogwai

/-- A file system that holds `frames.csv` and `pass.csv`, both writable, and
in which no other file exists or can be opened for writing. -/
def sampleFileSystem : FileSystem :=
  { doesFileExist := fun f => f == "frames.csv" || f == "pass.csv"
    canOpen := fun f => f == "frames.csv" || f == "pass.csv" }

/-- A capture writing frame times to `frames.csv` (two records so far) and the
times of pass `GBuffer` to `pass.csv`. -/
def sampleCapture : TimingCapture :=
  { mFrameTimeFile := { file := some "frames.csv", written := [16, 17] }
    mPassTimeFiles := [{ file := some "pass.csv", written := [3] }]
    mPassNames := ["GBuffer"] }

end Mogwai

/-! ## Properties -/

namespace Falcor

/-! ### Shared facts about the conversions and the unchecked access -/

theorem groupIndexAt_of_le (v : List GroupInfo) (i : Nat) (h : v.length ≤ i) :
    groupIndexAt v i = Outcome.undefined := by
  unfold groupIndexAt
  rw [List.getElem?_eq_none h]

theorem groupIndexAt_of_some (v : List GroupInfo) (i : Nat) (info : GroupInfo)
    (h : v[i]? = some info) :
    groupIndexAt v i = Outcome.value (toUInt32 info.groupIndex) := by
  unfold groupIndexAt
  rw [h]

theorem toUInt32_of_nonneg (z : Int) (h0 : 0 ≤ z) (h1 : z < 2 ^ 32) :
    (toUInt32 z : Int) = z := by
  unfold toUInt32 uint32Size
  have hm : z % ((2 ^ 32 : Nat) : Int) = z := Int.emod_eq_of_lt h0 (by simpa using h1)
  rw [hm]
  exact Int.toNat_of_nonneg h0

theorem sizeToUInt32_of_lt (n : Nat) (h : n < 2 ^ 32) : sizeToUInt32 n = n := by
  unfold sizeToUInt32 uint32Size
  exact Nat.mod_eq_of_lt h

/-! ### C1: ordinals outside the sequence -/

/-- C1, counterexample: on a program with no ray-gen entry, ordinal 0 is not
below the count (which is 0), yet `getRayGenIndex(0)` does not fail with
IndexOutOfRange: the access is unchecked and its behaviour undefined. -/
theorem getRayGenIndex_empty_not_IndexOutOfRange :
    RtProgram.getRayGenProgramCount
        { mDescExtra := {}, mMaxPayloadSize := 32, mMaxAttributesSize := 8 } ≤ 0 ∧
      RtProgram.getRayGenIndex
        { mDescExtra := {}, mMaxPayloadSize := 32, mMaxAttributesSize := 8 } 0
        ≠ Outcome.raised Error.IndexOutOfRange := by
  decide

/-- C1, as amended: for every program, each of the five role categories and
every ordinal `i` at or beyond the length of that category's sequence, the
index getter performs an unchecked access: it raises no error and returns no
value, its behaviour is undefined. -/
theorem getIndex_beyond_length_undefined (p : RtProgram) (i : Nat) :
    (p.mDescExtra.mRayGenEntryPoints.length ≤ i → p.getRayGenIndex i = Outcome.undefined) ∧
    (p.mDescExtra.mMissEntryPoints.length ≤ i → p.getMissIndex i = Outcome.undefined) ∧
    (p.mDescExtra.mHitGroups.length ≤ i → p.getHitIndex i = Outcome.undefined) ∧
    (p.mDescExtra.mParticleHitGroups.length ≤ i →
      p.getParticleHitIndex i = Outcome.undefined) ∧
    (p.mDescExtra.mCurveHitGroups.length ≤ i → p.getCurveHitIndex i = Outcome.undefined) :=
  ⟨groupIndexAt_of_le _ i, groupIndexAt_of_le _ i, groupIndexAt_of_le _ i,
    groupIndexAt_of_le _ i, groupIndexAt_of_le _ i⟩

/-- C1, witness: a program with two ray-gen entries, one miss entry and no
hit group, asked for ordinal 2 in each category. -/
theorem getIndex_beyond_length_undefined_witness :
    RtProgram.getRayGenIndex
        { mDescExtra := { mRayGenEntryPoints := [{ groupIndex := 0 }, { groupIndex := 1 }]
                          mMissEntryPoints := [{ groupIndex := 2 }] }
          mMaxPayloadSize := 32, mMaxAttributesSize := 8 } 2 = Outcome.undefined ∧
      RtProgram.getMissIndex
        { mDescExtra := { mRayGenEntryPoints := [{ groupIndex := 0 }, { groupIndex := 1 }]
                          mMissEntryPoints := [{ groupIndex := 2 }] }
          mMaxPayloadSize := 32, mMaxAttributesSize := 8 } 2 = Outcome.undefined ∧
      RtProgram.getHitIndex
        { mDescExtra := { mRayGenEntryPoints := [{ groupIndex := 0 }, { groupIndex := 1 }]
                          mMissEntryPoints := [{ groupIndex := 2 }] }
          mMaxPayloadSize := 32, mMaxAttributesSize := 8 } 2 = Outcome.undefined ∧
      RtProgram.getParticleHitIndex
        { mDescExtra := { mRayGenEntryPoints := [{ groupIndex := 0 }, { groupIndex := 1 }]
                          mMissEntryPoints := [{ groupIndex := 2 }] }
          mMaxPayloadSize := 32, mMaxAttributesSize := 8 } 2 = Outcome.undefined ∧
      RtProgram.getCurveHitIndex
        { mDescExtra := { mRayGenEntryPoints := [{ groupIndex := 0 }, { groupIndex := 1 }]
                          mMissEntryPoints := [{ groupIndex := 2 }] }
          mMaxPayloadSize := 32, mMaxAttributesSize := 8 } 2 = Outcome.undefined :=
  have h := getIndex_beyond_length_undefined
    { mDescExtra := { mRayGenEntryPoints := [{ groupIndex := 0 }, { groupIndex := 1 }]
                      mMissEntryPoints := [{ groupIndex := 2 }] }
      mMaxPayloadSize := 32, mMaxAttributesSize := 8 } 2
  ⟨h.1 (by decide), h.2.1 (by decide), h.2.2.1 (by decide), h.2.2.2.1 (by decide),
    h.2.2.2.2 (by decide)⟩

/-! ### C2: ordinals inside the sequence -/

/-- C2, counterexample: the ray-gen sequence holds one default-constructed
`GroupInfo` (groupIndex -1); ordinal 0 is in range and `getRayGenIndex(0)`
returns 4294967295, which is not the recorded groupIndex -1. -/
theorem getRayGenIndex_sentinel_not_recorded_value :
    (0 : Nat) < RtProgram.getRayGenProgramCount
        { mDescExtra := { mRayGenEntryPoints := [{}] }
          mMaxPayloadSize := 32, mMaxAttributesSize := 8 } ∧
      ([{}] : List GroupInfo)[0]? = some { groupIndex := -1 } ∧
      RtProgram.getRayGenIndex
        { mDescExtra := { mRayGenEntryPoints := [{}] }
          mMaxPayloadSize := 32, mMaxAttributesSize := 8 } 0 = Outcome.value 4294967295 ∧
      ((4294967295 : Nat) : Int) ≠ (-1 : Int) := by
  decide

/-- C2, as amended: for every program, each role category and every ordinal
`i` inside that category's own sequence, the index getter returns the
groupIndex recorded in the `i`-th `GroupInfo` of that sequence converted to
`uint32_t` (the groupIndex itself when it is non-negative, groupIndex + 2^32
when it is negative); the result is the same for any other program with the
same sequence in that category, whatever its other four sequences hold. -/
theorem getIndex_in_range (p : RtProgram) (i : Nat) (info : GroupInfo) :
    (p.mDescExtra.mRayGenEntryPoints[i]? = some info →
      p.getRayGenIndex i = Outcome.value (toUInt32 info.groupIndex) ∧
      ∀ q : RtProgram, q.mDescExtra.mRayGenEntryPoints = p.mDescExtra.mRayGenEntryPoints →
        q.getRayGenIndex i = p.getRayGenIndex i) ∧
    (p.mDescExtra.mMissEntryPoints[i]? = some info →
      p.getMissIndex i = Outcome.value (toUInt32 info.groupIndex) ∧
      ∀ q : RtProgram, q.mDescExtra.mMissEntryPoints = p.mDescExtra.mMissEntryPoints →
        q.getMissIndex i = p.getMissIndex i) ∧
    (p.mDescExtra.mHitGroups[i]? = some info →
      p.getHitIndex i = Outcome.value (toUInt32 info.groupIndex) ∧
      ∀ q : RtProgram, q.mDescExtra.mHitGroups = p.mDescExtra.mHitGroups →
        q.getHitIndex i = p.getHitIndex i) ∧
    (p.mDescExtra.mParticleHitGroups[i]? = some info →
      p.getParticleHitIndex i = Outcome.value (toUInt32 info.groupIndex) ∧
      ∀ q : RtProgram, q.mDescExtra.mParticleHitGroups = p.mDescExtra.mParticleHitGroups →
        q.getParticleHitIndex i = p.getParticleHitIndex i) ∧
    (p.mDescExtra.mCurveHitGroups[i]? = some info →
      p.getCurveHitIndex i = Outcome.value (toUInt32 info.groupIndex) ∧
      ∀ q : RtProgram, q.mDescExtra.mCurveHitGroups = p.mDescExtra.mCurveHitGroups →
        q.getCurveHitIndex i = p.getCurveHitIndex i) ∧
    (0 ≤ info.groupIndex → info.groupIndex < 2 ^ 32 →
      (toUInt32 info.groupIndex : Int) = info.groupIndex) ∧
    (info.groupIndex < 0 → - 2 ^ 32 ≤ info.groupIndex →
      (toUInt32 info.groupIndex : Int) = info.groupIndex + 2 ^ 32) := by
  refine ⟨fun h => ⟨groupIndexAt_of_some _ i info h, fun q hq => ?_⟩,
    fun h => ⟨groupIndexAt_of_some _ i info h, fun q hq => ?_⟩,
    fun h => ⟨groupIndexAt_of_some _ i info h, fun q hq => ?_⟩,
    fun h => ⟨groupIndexAt_of_some _ i info h, fun q hq => ?_⟩,
    fun h => ⟨groupIndexAt_of_some _ i info h, fun q hq => ?_⟩,
    toUInt32_of_nonneg info.groupIndex, fun hneg hlo => ?_⟩
  · simp only [RtProgram.getRayGenIndex, hq]
  · simp only [RtProgram.getMissIndex, hq]
  · simp only [RtProgram.getHitIndex, hq]
  · simp only [RtProgram.getParticleHitIndex, hq]
  · simp only [RtProgram.getCurveHitIndex, hq]
  · unfold toUInt32 uint32Size
    have hm : info.groupIndex % ((2 ^ 32 : Nat) : Int) = info.groupIndex + 2 ^ 32 := by
      have h2 : (info.groupIndex + 2 ^ 32) % ((2 ^ 32 : Nat) : Int) = info.groupIndex + 2 ^ 32 :=
        Int.emod_eq_of_lt (by linarith) (by push_cast; linarith)
      rw [← h2]
      push_cast
      simp
    rw [hm]
    exact Int.toNat_of_nonneg (by linarith)

/-- C2, witness: the sample program read at ordinal 1 (ray-gen) and 0 (the
other categories); its curve entry holds the -1 sentinel. -/
theorem getIndex_in_range_witness :
    sampleProgram.getRayGenIndex 1 = Outcome.value 1 ∧
    sampleProgram.getMissIndex 0 = Outcome.value 2 ∧
    sampleProgram.getHitIndex 0 = Outcome.value 3 ∧
    sampleProgram.getParticleHitIndex 0 = Outcome.value 4 ∧
    sampleProgram.getCurveHitIndex 0 = Outcome.value 4294967295 ∧
    RtProgram.getRayGenIndex
      { mDescExtra := { mRayGenEntryPoints := [{ groupIndex := 0 }, { groupIndex := 1 }] }
        mMaxPayloadSize := 0, mMaxAttributesSize := 0 } 1 = sampleProgram.getRayGenIndex 1 ∧
    (toUInt32 1 : Int) = 1 ∧
    (toUInt32 (-1) : Int) = -1 + 2 ^ 32 :=
  ⟨((getIndex_in_range sampleProgram 1 { groupIndex := 1 }).1 (by decide)).1,
    ((getIndex_in_range sampleProgram 0 { groupIndex := 2 }).2.1 (by decide)).1,
    ((getIndex_in_range sampleProgram 0 { groupIndex := 3 }).2.2.1 (by decide)).1,
    ((getIndex_in_range sampleProgram 0 { groupIndex := 4 }).2.2.2.1 (by decide)).1,
    ((getIndex_in_range sampleProgram 0 { groupIndex := -1 }).2.2.2.2.1 (by decide)).1,
    ((getIndex_in_range sampleProgram 1 { groupIndex := 1 }).1 (by decide)).2 _ (by decide),
    (getIndex_in_range sampleProgram 1 { groupIndex := 1 }).2.2.2.2.2.1 (by decide) (by decide),
    (getIndex_in_range sampleProgram 0 { groupIndex := -1 }).2.2.2.2.2.2 (by decide)
      (by decide)⟩

/-! ### C3: program counts -/

/-- C3, counterexample: with 4294967296 entries in the ray-gen sequence the
cast to `uint32_t` makes `getRayGenProgramCount()` return 0, not the length. -/
theorem getRayGenProgramCount_wraps :
    (List.replicate 4294967296 ({} : GroupInfo)).length = 4294967296 ∧
      RtProgram.getRayGenProgramCount
        { mDescExtra := { mRayGenEntryPoints := List.replicate 4294967296 {} }
          mMaxPayloadSize := 32, mMaxAttributesSize := 8 } = 0 := by
  refine ⟨List.length_replicate _ _, ?_⟩
  show sizeToUInt32 (List.replicate 4294967296 ({} : GroupInfo)).length = 0
  rw [List.length_replicate]
  decide

/-- C3, as amended: for every program and each role category the count getter
equals the length of that category's sequence reduced modulo 2^32, hence the
length itself whenever the sequence has fewer than 2^32 entries, and 0 when
the sequence is empty. -/
theorem programCount_eq_length_mod (p : RtProgram) :
    (p.getRayGenProgramCount = p.mDescExtra.mRayGenEntryPoints.length % 2 ^ 32 ∧
      (p.mDescExtra.mRayGenEntryPoints.length < 2 ^ 32 →
        p.getRayGenProgramCount = p.mDescExtra.mRayGenEntryPoints.length) ∧
      (p.mDescExtra.mRayGenEntryPoints = [] → p.getRayGenProgramCount = 0)) ∧
    (p.getMissProgramCount = p.mDescExtra.mMissEntryPoints.length % 2 ^ 32 ∧
      (p.mDescExtra.mMissEntryPoints.length < 2 ^ 32 →
        p.getMissProgramCount = p.mDescExtra.mMissEntryPoints.length) ∧
      (p.mDescExtra.mMissEntryPoints = [] → p.getMissProgramCount = 0)) ∧
    (p.getHitProgramCount = p.mDescExtra.mHitGroups.length % 2 ^ 32 ∧
      (p.mDescExtra.mHitGroups.length < 2 ^ 32 →
        p.getHitProgramCount = p.mDescExtra.mHitGroups.length) ∧
      (p.mDescExtra.mHitGroups = [] → p.getHitProgramCount = 0)) ∧
    (p.getParticleHitProgramCount = p.mDescExtra.mParticleHitGroups.length % 2 ^ 32 ∧
      (p.mDescExtra.mParticleHitGroups.length < 2 ^ 32 →
        p.getParticleHitProgramCount = p.mDescExtra.mParticleHitGroups.length) ∧
      (p.mDescExtra.mParticleHitGroups = [] → p.getParticleHitProgramCount = 0)) ∧
    (p.getCurveHitProgramCount = p.mDescExtra.mCurveHitGroups.length % 2 ^ 32 ∧
      (p.mDescExtra.mCurveHitGroups.length < 2 ^ 32 →
        p.getCurveHitProgramCount = p.mDescExtra.mCurveHitGroups.length) ∧
      (p.mDescExtra.mCurveHitGroups = [] → p.getCurveHitProgramCount = 0)) := by
  have key : ∀ v : List GroupInfo,
      sizeToUInt32 v.length = v.length % 2 ^ 32 ∧
        (v.length < 2 ^ 32 → sizeToUInt32 v.length = v.length) ∧
        (v = [] → sizeToUInt32 v.length = 0) := by
    intro v
    refine ⟨rfl, sizeToUInt32_of_lt _, fun h => ?_⟩
    subst h
    rfl
  exact ⟨key _, key _, key _, key _, key _⟩

/-- C3, witness: the counts of the sample program, and of a program whose
`DescExtra` has no registrations. -/
theorem programCount_eq_length_mod_witness :
    sampleProgram.getRayGenProgramCount = 2 ∧
    sampleProgram.getMissProgramCount = 1 ∧
    sampleProgram.getHitProgramCount = 1 ∧
    sampleProgram.getParticleHitProgramCount = 1 ∧
    sampleProgram.getCurveHitProgramCount = 1 ∧
    RtProgram.getRayGenProgramCount
      { mDescExtra := {}, mMaxPayloadSize := 32, mMaxAttributesSize := 8 } = 0 ∧
    RtProgram.getMissProgramCount
      { mDescExtra := {}, mMaxPayloadSize := 32, mMaxAttributesSize := 8 } = 0 ∧
    RtProgram.getHitProgramCount
      { mDescExtra := {}, mMaxPayloadSize := 32, mMaxAttributesSize := 8 } = 0 ∧
    RtProgram.getParticleHitProgramCount
      { mDescExtra := {}, mMaxPayloadSize := 32, mMaxAttributesSize := 8 } = 0 ∧
    RtProgram.getCurveHitProgramCount
      { mDescExtra := {}, mMaxPayloadSize := 32, mMaxAttributesSize := 8 } = 0 :=
  ⟨(programCount_eq_length_mod sampleProgram).1.2.1 (by decide),
    (programCount_eq_length_mod sampleProgram).2.1.2.1 (by decide),
    (programCount_eq_length_mod sampleProgram).2.2.1.2.1 (by decide),
    (programCount_eq_length_mod sampleProgram).2.2.2.1.2.1 (by decide),
    (programCount_eq_length_mod sampleProgram).2.2.2.2.2.1 (by decide),
    (programCount_eq_length_mod _).1.2.2 rfl,
    (programCount_eq_length_mod _).2.1.2.2 rfl,
    (programCount_eq_length_mod _).2.2.1.2.2 rfl,
    (programCount_eq_length_mod _).2.2.2.1.2.2 rfl,
    (programCount_eq_length_mod _).2.2.2.2.2.2 rfl⟩

/-! ### C4 and C5: the recursion-depth setter -/

/-- C5: for every descriptor and every depth `d` (in particular every 32-bit
unsigned value) the setter, a total function, stores `d` exactly: the stored
depth is `d`, a program holding the resulting `DescExtra` reports `d` from
`getMaxTraceRecursionDepth`, and the five entry-point sequences are those of
the descriptor before the call. -/
theorem setMaxTraceRecursionDepth_stores (self : DescExtra) (d a b : Nat) :
    (self.setMaxTraceRecursionDepth d).mMaxTraceRecursionDepth = d ∧
    RtProgram.getMaxTraceRecursionDepth
      { mDescExtra := self.setMaxTraceRecursionDepth d
        mMaxPayloadSize := a, mMaxAttributesSize := b } = d ∧
    (self.setMaxTraceRecursionDepth d).mRayGenEntryPoints = self.mRayGenEntryPoints ∧
    (self.setMaxTraceRecursionDepth d).mMissEntryPoints = self.mMissEntryPoints ∧
    (self.setMaxTraceRecursionDepth d).mHitGroups = self.mHitGroups ∧
    (self.setMaxTraceRecursionDepth d).mParticleHitGroups = self.mParticleHitGroups ∧
    (self.setMaxTraceRecursionDepth d).mCurveHitGroups = self.mCurveHitGroups :=
  ⟨rfl, rfl, rfl, rfl, rfl, rfl, rfl⟩

end Falcor

namespace Mogwai

/-! ### C7 and C8: a capture file that cannot be opened -/

/-- C7, the code at the failing inputs: `capturePassTime` with a file name
whose open fails logs "Ignoring call." but (1) for a pass not yet registered
it has appended the pass name and a closed stream, and (2) for a registered
pass whose file was open it has closed that file. -/
theorem capturePassTime_open_failure_changes_state :
    TimingCapture.capturePassTime sampleFileSystem {} {} "missing_dir/pass.csv" "GBuffer" =
      Outcome.value
        ({ mFrameTimeFile := {}, mPassTimeFiles := [{ file := none, written := [] }]
           mPassNames := ["GBuffer"] },
         { gProfileEnabled := true
           log := [(LogLevel.Error,
             "Failed to open file \x27missing_dir/pass.csv\x27 for writing. Ignoring call.")] }) ∧
    TimingCapture.capturePassTime sampleFileSystem sampleCapture {} "missing_dir/pass.csv"
        "GBuffer" =
      Outcome.value
        ({ mFrameTimeFile := { file := some "frames.csv", written := [16, 17] }
           mPassTimeFiles := [{ file := none, written := [3] }]
           mPassNames := ["GBuffer"] },
         { gProfileEnabled := true
           log := [(LogLevel.Error,
             "Failed to open file \x27missing_dir/pass.csv\x27 for writing. Ignoring call.")] }) := by
  decide

/-- C8, the code at the failing input: `captureFrameTime` with a file name
whose open fails logs "Ignoring call." but has closed the frame-time file that
was open, and the next frame time is recorded nowhere. -/
theorem captureFrameTime_open_failure_closes_file :
    sampleCapture.mFrameTimeFile.is_open = true ∧
    TimingCapture.captureFrameTime sampleFileSystem sampleCapture {} "missing_dir/frames.csv" =
      ({ mFrameTimeFile := { file := none, written := [16, 17] }
         mPassTimeFiles := [{ file := some "pass.csv", written := [3] }]
         mPassNames := ["GBuffer"] },
       { gProfileEnabled := false
         log := [(LogLevel.Error,
           "Failed to open file \x27missing_dir/frames.csv\x27 for writing. Ignoring call.")] }) ∧
    (TimingCapture.recordPreviousFrameTime 2 18 sampleCapture).mFrameTimeFile.written =
      [16, 17, 18] ∧
    (TimingCapture.recordPreviousFrameTime 2 18
      (TimingCapture.captureFrameTime sampleFileSystem sampleCapture {}
        "missing_dir/frames.csv").1).mFrameTimeFile.written = [16, 17] := by
  decide

/-! ### C9: registering a global object -/

theorem mapFind_isSome_iff (m : List (String × String)) (key : String) :
    (mapFind m key).isSome = true ↔ key ∈ m.map Prod.fst := by
  induction m with
  | nil => simp [mapFind]
  | cons kv rest ih =>
    obtain ⟨k, v⟩ := kv
    by_cases h : k = key
    · simp [mapFind, h]
    · have h2 : ¬ key = k := fun e => h e.symm
      simp [mapFind, h, h2, ih]

theorem mapFind_mapAssign_self (m : List (String × String)) (key value : String) :
    mapFind (mapAssign m key value) key = some value := by
  induction m with
  | nil => simp [mapAssign, mapFind]
  | cons kv rest ih =>
    obtain ⟨k, v⟩ := kv
    by_cases h : k = key
    · simp [mapAssign, mapFind, h]
    · simp [mapAssign, mapFind, h, ih]

theorem mapFind_mapAssign_other (m : List (String × String)) (key value other : String)
    (hne : other ≠ key) :
    mapFind (mapAssign m key value) other = mapFind m other := by
  induction m with
  | nil =>
    have h2 : ¬ key = other := fun e => hne e.symm
    simp [mapAssign, mapFind, h2]
  | cons kv rest ih =>
    obtain ⟨k, v⟩ := kv
    have h2 : ¬ key = other := fun e => hne e.symm
    by_cases h : k = key
    · subst h
      simp [mapAssign, mapFind, h2]
    · by_cases h3 : k = other
      · subst h3
        simp [mapAssign, mapFind, hne]
      · simp [mapAssign, mapFind, h, h3, ih]

/-- C9: `addGlobalObject(name, obj, desc)` throws if and only if `name` is
already a key of the registered global objects; when it throws, the message is
"Object 'name' already exists" and both the registry and the scripting context
are left as they were; otherwise it ends normally, the scripting context has
received `setObject(name, obj)`, and the registry maps `name` to `desc` and
every other key to what it mapped to before. -/
theorem addGlobalObject_throws_iff_registered {Ctx T : Type}
    (setObject : Ctx → String → T → Ctx) (self : Bindings) (ctx : Ctx) (name : String)
    (obj : T) (desc : String) :
    ((∃ msg, (Bindings.addGlobalObject setObject self ctx name obj desc).1 = Outcome.raised msg) ↔
      name ∈ self.mGlobalObjects.map Prod.fst) ∧
    (name ∈ self.mGlobalObjects.map Prod.fst →
      Bindings.addGlobalObject setObject self ctx name obj desc =
        (Outcome.raised ("Object \x27" ++ name ++ "\x27 already exists"), self, ctx)) ∧
    (name ∉ self.mGlobalObjects.map Prod.fst →
      (Bindings.addGlobalObject setObject self ctx name obj desc).1 = Outcome.value () ∧
      (Bindings.addGlobalObject setObject self ctx name obj desc).2.2 = setObject ctx name obj ∧
      mapFind (Bindings.addGlobalObject setObject self ctx name obj desc).2.1.mGlobalObjects name
        = some desc ∧
      ∀ other, other ≠ name →
        mapFind (Bindings.addGlobalObject setObject self ctx name obj desc).2.1.mGlobalObjects
          other = mapFind self.mGlobalObjects other) := by
  by_cases hk : name ∈ self.mGlobalObjects.map Prod.fst
  · have hs : (mapFind self.mGlobalObjects name).isSome = true :=
      (mapFind_isSome_iff _ _).2 hk
    have hr : Bindings.addGlobalObject setObject self ctx name obj desc =
        (Outcome.raised ("Object \x27" ++ name ++ "\x27 already exists"), self, ctx) := by
      unfold Bindings.addGlobalObject
      rw [if_pos hs]
    refine ⟨⟨fun _ => hk, fun _ => ⟨_, by rw [hr]⟩⟩, fun _ => hr, fun hn => absurd hk hn⟩
  · have hs : ¬ (mapFind self.mGlobalObjects name).isSome = true :=
      fun h => hk ((mapFind_isSome_iff _ _).1 h)
    have hr : Bindings.addGlobalObject setObject self ctx name obj desc =
        (Outcome.value (),
          { self with mGlobalObjects := mapAssign self.mGlobalObjects name desc },
          setObject ctx name obj) := by
      unfold Bindings.addGlobalObject
      rw [if_neg hs]
    refine ⟨⟨fun ⟨msg, hm⟩ => ?_, fun h => absurd h hk⟩, fun h => absurd h hk, fun _ => ?_⟩
    · rw [hr] at hm
      cases hm
    · rw [hr]
      exact ⟨rfl, rfl, mapFind_mapAssign_self _ _ _,
        fun other hne => mapFind_mapAssign_other _ _ _ _ hne⟩

/-- C9, witness: with `tc` already registered, registering `tc` again throws
and changes nothing, while registering `fc` succeeds and keeps the entry of
`tc`; the scripting context is kept as the list of calls it received. -/
theorem addGlobalObject_throws_iff_registered_witness :
    Bindings.addGlobalObject (fun (c : List (String × Nat)) n o => c ++ [(n, o)])
        { mGlobalObjects := [("tc", "Timing Capture Helpers")] } [("tc", 1)] "tc" 2 "Other" =
      (Outcome.raised "Object \x27tc\x27 already exists",
        { mGlobalObjects := [("tc", "Timing Capture Helpers")] }, [("tc", 1)]) ∧
    ((Bindings.addGlobalObject (fun (c : List (String × Nat)) n o => c ++ [(n, o)])
        { mGlobalObjects := [("tc", "Timing Capture Helpers")] } [("tc", 1)] "fc" 2
        "Frame Capture Helpers").1 = Outcome.value () ∧
      (Bindings.addGlobalObject (fun (c : List (String × Nat)) n o => c ++ [(n, o)])
        { mGlobalObjects := [("tc", "Timing Capture Helpers")] } [("tc", 1)] "fc" 2
        "Frame Capture Helpers").2.2 = [("tc", 1), ("fc", 2)] ∧
      mapFind (Bindings.addGlobalObject (fun (c : List (String × Nat)) n o => c ++ [(n, o)])
        { mGlobalObjects := [("tc", "Timing Capture Helpers")] } [("tc", 1)] "fc" 2
        "Frame Capture Helpers").2.1.mGlobalObjects "fc" = some "Frame Capture Helpers" ∧
      ∀ other, other ≠ "fc" →
        mapFind (Bindings.addGlobalObject (fun (c : List (String × Nat)) n o => c ++ [(n, o)])
          { mGlobalObjects := [("tc", "Timing Capture Helpers")] } [("tc", 1)] "fc" 2
          "Frame Capture Helpers").2.1.mGlobalObjects other =
        mapFind [("tc", "Timing Capture Helpers")] other) :=
  ⟨(addGlobalObject_throws_iff_registered (fun (c : List (String × Nat)) n o => c ++ [(n, o)])
      { mGlobalObjects := [("tc", "Timing Capture Helpers")] } [("tc", 1)] "tc" 2 "Other").2.1
      (by decide),
    (addGlobalObject_throws_iff_registered (fun (c : List (String × Nat)) n o => c ++ [(n, o)])
      { mGlobalObjects := [("tc", "Timing Capture Helpers")] } [("tc", 1)] "fc" 2
      "Frame Capture Helpers").2.2 (by decide)⟩

end Mogwai

namespace Falcor

/-! ### C10: registering a hit group -/

/-- C10: for every descriptor and hit ordinal, `addHitGroup` with closest-hit,
any-hit and intersection names all empty fails with InvalidConfiguration, and
`addHitGroup` with a non-empty closest-hit name and empty any-hit and
intersection names succeeds and returns the descriptor, extended by that one
registration. -/
theorem addHitGroup_empty_fails_closestHit_succeeds (self : Desc) (hitIndex : Nat)
    (closestHit : String) :
    self.addHitGroup hitIndex "" "" "" = Outcome.raised Error.InvalidConfiguration ∧
    (closestHit ≠ "" →
      self.addHitGroup hitIndex closestHit "" "" =
        Outcome.value
          { self with
            mBaseDesc := self.mBaseDesc ++ [EntryPoint.HitGroup hitIndex closestHit "" ""] }) := by
  refine ⟨rfl, fun h => ?_⟩
  have he : closestHit.isEmpty = false := by
    cases hb : closestHit.isEmpty with
    | false => rfl
    | true => exact absurd ((String.isEmpty_iff _).1 hb) h
  unfold Desc.addHitGroup
  rw [he]
  rfl

/-- C10, witness: a standard hit group with only the closest-hit shader
`closestHitMain`, registered at ordinal 0 of a fresh descriptor. -/
theorem addHitGroup_empty_fails_closestHit_succeeds_witness :
    Desc.addHitGroup {} 0 "closestHitMain" "" "" =
      Outcome.value { mBaseDesc := [EntryPoint.HitGroup 0 "closestHitMain" "" ""] } :=
  (addHitGroup_empty_fails_closestHit_succeeds {} 0 "closestHitMain").2 (by decide)

/-! ### C11: adding the same define twice -/

theorem DefineList.find_add_self (m : DefineList) (key value : String) :
    (m.add key value).find key = some value := by
  simp [DefineList.find, DefineList.add]

theorem DefineList.find_add_other (m : DefineList) (key value other : String)
    (hne : other ≠ key) : (m.add key value).find other = m.find other := by
  have h2 : ¬ key = other := fun e => hne e.symm
  have hfilter : ∀ l : List (String × String),
      (l.filter (fun e => decide (e.1 ≠ key))).find? (fun e => decide (e.1 = other)) =
        l.find? (fun e => decide (e.1 = other)) := by
    intro l
    induction l with
    | nil => rfl
    | cons kv rest ih =>
      obtain ⟨k, v⟩ := kv
      by_cases hk : k = key
      · have hdrop : decide ((k, v).1 ≠ key) = false := decide_eq_false (fun hc => hc hk)
        have hskip : decide ((k, v).1 = other) = false :=
          decide_eq_false (fun hc => h2 (hk ▸ hc))
        rw [List.filter_cons, hdrop, List.find?_cons, hskip]
        exact ih
      · have hkeep : decide ((k, v).1 ≠ key) = true := decide_eq_true hk
        rw [List.filter_cons, hkeep]
        by_cases ho : k = other
        · have hhit : decide ((k, v).1 = other) = true := decide_eq_true ho
          simp only [if_true, List.find?_cons, hhit]
        · have hmiss : decide ((k, v).1 = other) = false := decide_eq_false ho
          simp only [if_true, List.find?_cons, hmiss]
          exact ih
  simp only [DefineList.find, DefineList.add]
  rw [List.find?_cons]
  simp only [h2, decide_False]
  rw [hfilter]

theorem DefineList.entries_of_key_add (m : DefineList) (key value : String) :
    (m.add key value).entries.filter (fun e => decide (e.1 = key)) = [(key, value)] := by
  have hnil : (m.entries.filter (fun e => decide (e.1 ≠ key))).filter
      (fun e => decide (e.1 = key)) = [] := by
    rw [List.filter_eq_nil_iff]
    intro e he hd
    rw [List.mem_filter] at he
    exact (of_decide_eq_true he.2) (of_decide_eq_true hd)
  simp only [DefineList.add]
  rw [List.filter_cons]
  simp [hnil]

/-- C11: for every descriptor, every key `k` and values `v1 ≠ v2`,
`addDefine(k, v1)` followed by `addDefine(k, v2)` raises no error and leaves a
define list whose entries for `k` are exactly the one entry `(k, v2)`: the
list holds `v2` for `k`, has no entry `(k, v1)`, and holds for every other key
what it held before; the registrations and the `DescExtra` part are
untouched. -/
theorem addDefine_twice_last_wins (self : Desc) (k v1 v2 : String) (hne : v1 ≠ v2) :
    ∃ d : Desc,
      (self.addDefine k v1).andThen (fun d1 => d1.addDefine k v2) = Outcome.value d ∧
      d.mDefineList.entries.filter (fun e => decide (e.1 = k)) = [(k, v2)] ∧
      d.mDefineList.find k = some v2 ∧
      (k, v1) ∉ d.mDefineList.entries ∧
      (∀ other, other ≠ k → d.mDefineList.find other = self.mDefineList.find other) ∧
      d.mBaseDesc = self.mBaseDesc ∧ d.toDescExtra = self.toDescExtra := by
  have hfilter := DefineList.entries_of_key_add (self.mDefineList.add k v1) k v2
  refine ⟨{ self with mDefineList := (self.mDefineList.add k v1).add k v2 },
    rfl, hfilter, DefineList.find_add_self _ _ _, ?_, ?_, rfl, rfl⟩
  · intro hmem
    have hin : (k, v1) ∈ ((self.mDefineList.add k v1).add k v2).entries.filter
        (fun e => decide (e.1 = k)) := by
      rw [List.mem_filter]
      exact ⟨hmem, decide_eq_true rfl⟩
    rw [hfilter, List.mem_singleton] at hin
    exact hne (congrArg Prod.snd hin)
  · intro other ho
    show ((self.mDefineList.add k v1).add k v2).find other = _
    rw [DefineList.find_add_other _ _ _ _ ho, DefineList.find_add_other _ _ _ _ ho]

/-- C11, witness: a descriptor that already defines `MAX_BOUNCES` as 3 and
`USE_VOLUME` as 1; `MAX_BOUNCES` is added as 4 and then as 8. -/
theorem addDefine_twice_last_wins_witness :
    ∃ d : Desc,
      (Desc.addDefine
          { mDefineList := { entries := [("MAX_BOUNCES", "3"), ("USE_VOLUME", "1")] } }
          "MAX_BOUNCES" "4").andThen (fun d1 => d1.addDefine "MAX_BOUNCES" "8") =
        Outcome.value d ∧
      d.mDefineList.entries.filter (fun e => decide (e.1 = "MAX_BOUNCES")) =
        [("MAX_BOUNCES", "8")] ∧
      d.mDefineList.find "MAX_BOUNCES" = some "8" ∧
      ("MAX_BOUNCES", "4") ∉ d.mDefineList.entries ∧
      (∀ other, other ≠ "MAX_BOUNCES" →
        d.mDefineList.find other =
          DefineList.find { entries := [("MAX_BOUNCES", "3"), ("USE_VOLUME", "1")] } other) ∧
      d.mBaseDesc = [] ∧ d.toDescExtra = {} :=
  addDefine_twice_last_wins
    { mDefineList := { entries := [("MAX_BOUNCES", "3"), ("USE_VOLUME", "1")] } }
    "MAX_BOUNCES" "4" "8" (by decide)

end Falcor

namespace Mogwai

/-! ### C13: recording the previous frame time -/

/-- C13: `recordPreviousFrameTime` appends exactly one record, the last frame
time, to the frame-time file if and only if the frame-time file is open and
the frame count is greater than 1: in that case the only change is that record
at the end of the file; otherwise (file not open, or frame count 0 or 1) the
capture state is exactly what it was. -/
theorem recordPreviousFrameTime_appends_iff (frameCount : Nat) (lastFrameTime : Double)
    (self : TimingCapture) :
    ((self.mFrameTimeFile.is_open = true ∧ 1 < frameCount) →
      TimingCapture.recordPreviousFrameTime frameCount lastFrameTime self =
        { self with
          mFrameTimeFile :=
            { self.mFrameTimeFile with
              written := self.mFrameTimeFile.written ++ [lastFrameTime] } }) ∧
    (¬ (self.mFrameTimeFile.is_open = true ∧ 1 < frameCount) →
      TimingCapture.recordPreviousFrameTime frameCount lastFrameTime self = self) ∧
    ((TimingCapture.recordPreviousFrameTime frameCount lastFrameTime self).mFrameTimeFile.written
        = self.mFrameTimeFile.written ++ [lastFrameTime] ↔
      (self.mFrameTimeFile.is_open = true ∧ 1 < frameCount)) := by
  have hyes : (self.mFrameTimeFile.is_open = true ∧ 1 < frameCount) →
      TimingCapture.recordPreviousFrameTime frameCount lastFrameTime self =
        { self with
          mFrameTimeFile :=
            { self.mFrameTimeFile with
              written := self.mFrameTimeFile.written ++ [lastFrameTime] } } := by
    intro h
    unfold TimingCapture.recordPreviousFrameTime Ofstream.put
    simp [h.1, h.2]
  have hno : ¬ (self.mFrameTimeFile.is_open = true ∧ 1 < frameCount) →
      TimingCapture.recordPreviousFrameTime frameCount lastFrameTime self = self := by
    intro h
    unfold TimingCapture.recordPreviousFrameTime
    by_cases ho : self.mFrameTimeFile.is_open = true
    · have hc : ¬ 1 < frameCount := fun hc => h ⟨ho, hc⟩
      simp [ho, hc]
    · simp [ho]
  refine ⟨hyes, hno, ⟨fun hw => ?_, fun h => ?_⟩⟩
  · by_contra hcon
    rw [hno hcon] at hw
    have hlen := congrArg List.length hw
    simp at hlen
  · rw [hyes h]

/-- C13, witness: the sample capture (frame file open, records 16 and 17) at
frame count 2 receives the record 18; at frame count 1, and for a capture
whose frame file is not open at frame count 5, nothing changes. -/
theorem recordPreviousFrameTime_appends_iff_witness :
    TimingCapture.recordPreviousFrameTime 2 18 sampleCapture =
      { sampleCapture with
        mFrameTimeFile := { file := some "frames.csv", written := [16, 17, 18] } } ∧
    TimingCapture.recordPreviousFrameTime 1 18 sampleCapture = sampleCapture ∧
    TimingCapture.recordPreviousFrameTime 5 18 {} = {} :=
  ⟨(recordPreviousFrameTime_appends_iff 2 18 sampleCapture).1 (by decide),
    (recordPreviousFrameTime_appends_iff 1 18 sampleCapture).2.1 (by decide),
    (recordPreviousFrameTime_appends_iff 5 18 {}).2.1 (by decide)⟩

end Mogwai

namespace Falcor

/-! ### C12: two consecutive state-object requests -/

end Falcor
